import Mathlib

/-!
# Verification of the mini interview platform backend (src/server.js)

A shallow embedding of the Express/Mongoose route handlers of the backend:
stores are lists of documents, handlers are pure functions from the request
parameters and the current store to a response and the updated store.
JavaScript numeric coercion of query/body parameters is modelled on
integer-literal strings (`jsNumber`); bcrypt and jwt are modelled as abstract
function parameters, since their behaviour is cryptographic and external to
this repository.
-/

namespace MiniInterview

/-- Accumulate a decimal numeral from a character list; `none` on any
non-digit character. -/
def digitsToNat (acc : Nat) : List Char → Option Nat
  | [] => some acc
  | c :: cs => if c.isDigit then digitsToNat (acc * 10 + (c.toNat - 48)) cs else none

/-- Parse an optionally negated decimal integer literal; `none` on anything
else. -/
def jsStrToInt (s : String) : Option Int :=
  match s.data with
  | [] => none
  | '-' :: cs =>
    if cs.isEmpty then none else (digitsToNat 0 cs).map (fun n => -(n : Int))
  | cs => (digitsToNat 0 cs).map (fun n => (n : Int))

/-- ASCII lowercasing of a string, modelling JavaScript toLowerCase and the
mongoose `lowercase: true` setter on the email path. -/
def strLower (s : String) : String :=
  ⟨s.data.map Char.toLower⟩

/-- If `pat` is an initial segment of `s`, the remainder of `s` after it. -/
def stripPat : List Char → List Char → Option (List Char)
  | [], s => some s
  | _ :: _, [] => none
  | p :: ps, c :: cs => if c = p then stripPat ps cs else none

/-- Remove the first occurrence of `pat` from `s`, leaving later ones. -/
def removeFirstOcc (pat : List Char) : List Char → List Char
  | [] => []
  | c :: cs =>
    match stripPat pat (c :: cs) with
    | some rest => rest
    | none => c :: removeFirstOcc pat cs

/-- Whether `pat` occurs as a contiguous sublist. -/
def hasSubChars (pat : List Char) : List Char → Bool
  | [] => (stripPat pat []).isSome
  | c :: cs => (stripPat pat (c :: cs)).isSome || hasSubChars pat cs

/-- Split on a separator character. -/
def splitOnChar (sep : Char) : List Char → List Char → List (List Char)
  | [], acc => [acc.reverse]
  | c :: cs, acc =>
    if c = sep then acc.reverse :: splitOnChar sep cs []
    else splitOnChar sep cs (c :: acc)

/-- Models JavaScript `Number(x)` on an optional string parameter, restricted
to integer-literal strings: a missing parameter gives NaN (`none`), the empty
string coerces to `0`, an integer literal parses, any other string gives NaN. -/
def jsNumber : Option String → Option Int
  | none => none
  | some s => if s = "" then some 0 else jsStrToInt s

/-- Models the JavaScript expression `x || d` for numeric `x`: NaN (`none`)
and `0` are falsy and fall back to the default. -/
def jsOrDefault (x : Option Int) (d : Int) : Int :=
  match x with
  | none => d
  | some n => if n = 0 then d else n

/-- JavaScript truthiness of an optional string parameter: an absent parameter
and the empty string are falsy, every other string is truthy. -/
def strTruthy : Option String → Bool
  | none => false
  | some s => !s.isEmpty

/-- Hexadecimal digit test, for ObjectId syntax. -/
def isHexChar (c : Char) : Bool :=
  c.isDigit || (decide ('a' ≤ c) && decide (c ≤ 'f')) || (decide ('A' ≤ c) && decide (c ≤ 'F'))

/-- Models express-validator `isMongoId`: a 24-character hexadecimal string. -/
def isMongoId (s : String) : Bool :=
  s.length == 24 && s.toList.all isHexChar

/-- Models JavaScript `s.replace(pat, '')` with a plain-string pattern:
removes the first occurrence of `pat` and leaves any later ones. -/
def jsReplaceOnce (s pat : String) : String :=
  ⟨removeFirstOcc pat.data s.data⟩

/-- Case-insensitive substring test, modelling a MongoDB `$regex` name match
with the `i` option for a metacharacter-free, non-empty pattern. -/
def containsCI (s pat : String) : Bool :=
  hasSubChars (pat.data.map Char.toLower) (s.data.map Char.toLower)

/-- express-validator `notEmpty` on an optional field. -/
def notEmptyParam : Option String → Bool
  | none => false
  | some s => !s.isEmpty

/-- express-validator `isNumeric` on a required field (restricted to integer
literals, matching `jsNumber`). -/
def isNumericParam : Option String → Bool
  | none => false
  | some s => (jsStrToInt s).isSome

/-- express-validator `optional().isNumeric()`. -/
def optionalNumericOk : Option String → Bool
  | none => true
  | some s => (jsStrToInt s).isSome

/-- express-validator `isLength({ min: 6 })` for the signup password. -/
def passwordLenOk : Option String → Bool
  | none => false
  | some s => decide (6 ≤ s.length)

/-- Simplified model of express-validator `isEmail`: a single `@` separating
two non-empty halves, no spaces. The claims below never depend on the exact
boundary of this check. -/
def isEmailParam : Option String → Bool
  | none => false
  | some s =>
    match splitOnChar '@' s.data [] with
    | [a, b] => !a.isEmpty && !b.isEmpty && !(s.data.contains ' ')
    | _ => false

/-- express-validator `optional().isIn(['onsite', 'remote'])`. -/
def modeOk : Option String → Bool
  | none => true
  | some m => m == "onsite" || m == "remote"

/-- An HTTP JSON response: a success body with its status, or an error message
with its status (the `{error: ...}` shape). -/
inductive Outcome (α : Type) where
  | ok (status : Nat) (body : α)
  | err (status : Nat) (message : String)
deriving Repr, DecidableEq

/-- The HTTP status of a response. -/
def Outcome.statusOf : Outcome α → Nat
  | .ok s _ => s
  | .err s _ => s

instance {ε α : Type} [DecidableEq ε] [DecidableEq α] : DecidableEq (Except ε α) := fun x y =>
  match x, y with
  | .error a, .error b => decidable_of_iff (a = b) (by simp)
  | .error _, .ok _ => isFalse (fun h => nomatch h)
  | .ok _, .error _ => isFalse (fun h => nomatch h)
  | .ok a, .ok b => decidable_of_iff (a = b) (by simp)

/-- A JavaScript error object as seen by the centralized error handler. -/
structure JsError where
  name : String
  code : Option Int
  status : Option Nat
  message : String
deriving Repr, DecidableEq

/-- The centralized error handler (src/server.js lines 54-60): a Mongo
duplicate-key error maps to 400, anything else to `err.status || 500`. -/
def handleError {α : Type} (e : JsError) : Outcome α :=
  if e.name == "MongoServerError" && e.code == some 11000 then
    .err 400 "Duplicate key"
  else
    .err (e.status.getD 500) e.message

/-- The error mongoose raises when schema validation fails at save time: its
name is "ValidationError" and it carries no `status` and no Mongo error code. -/
def mongooseValidationError (msg : String) : JsError :=
  { name := "ValidationError", code := none, status := none, message := msg }

/-- The Mongo duplicate-key error raised when a save violates a unique index. -/
def duplicateKeyError : JsError :=
  { name := "MongoServerError", code := some 11000, status := none
    message := "E11000 duplicate key error" }

/-- A persisted user document (userSchema, lines 25-31): the email is stored
lowercased by the schema setter. -/
structure User where
  name : String
  email : String
  passwordHash : String
  role : String
deriving Repr, DecidableEq

/-- A persisted candidate document (candidateSchema, lines 33-41). -/
structure Candidate where
  id : String
  name : String
  role : String
  experience : Int
  rating : Int
  notes : String
  createdBy : String
  createdAt : Int
deriving Repr, DecidableEq

/-- The embedded feedback sub-object of an interview (line 48); both fields
are optional. A freshly created interview has neither field set. -/
structure Feedback where
  rating : Option Int
  notes : Option String
deriving Repr, DecidableEq

/-- A persisted interview document (interviewSchema, lines 43-51); `date` is
the parsed timestamp of the scheduled date. -/
structure Interview where
  id : String
  candidate : String
  date : Int
  interviewer : String
  mode : String
  feedback : Feedback
  createdBy : String
deriving Repr, DecidableEq

/-- `Candidate.findById`. -/
def findCandidate (store : List Candidate) (i : String) : Option Candidate :=
  store.find? (fun c => c.id == i)

/-- `Interview.findById`. -/
def findInterview (store : List Interview) (i : String) : Option Interview :=
  store.find? (fun iv => iv.id == i)

/-- The decoded claims of a bearer token. -/
structure TokenPayload where
  userId : String
  role : String
deriving Repr, DecidableEq

/-- Result of the auth middleware: a denial response, or the request proceeds
with the decoded payload attached to the request context. -/
inductive AuthResult where
  | denied (status : Nat) (message : String)
  | allowed (payload : TokenPayload)
deriving Repr, DecidableEq

/-- The auth middleware (lines 63-77). `jwt.verify` is modelled as an abstract
verifier returning the decoded payload, or failing for any token whose
signature does not verify or which is past its expiry. A missing header and
the empty-string header are both falsy in the `if (!header)` guard. -/
def authMiddleware (requiredRole : String) (verify : String → Except Unit TokenPayload)
    (header : Option String) : AuthResult :=
  if !strTruthy header then .denied 401 "No token provided"
  else
    let token := jsReplaceOnce (header.getD "") "Bearer "
    match verify token with
    | .error _ => .denied 401 "Invalid token"
    | .ok payload =>
      if !requiredRole.isEmpty && payload.role != requiredRole then
        .denied 403 "Forbidden"
      else
        .allowed payload

/-- POST /api/auth/signup (lines 94-107). `hash` models `bcrypt.hash` and
`sign` models `jwt.sign`. The `User.findOne({ email })` query has the schema's
lowercase setter applied to the filter value (mongoose runs setters on query
filters), and the save enforces the unique index over the stored lowercase
email, raising a duplicate-key error that the centralized handler maps. -/
def signup (users : List User) (name email password : Option String)
    (hash : String → String) (sign : User → String) : Outcome String × List User :=
  if !(notEmptyParam name && isEmailParam email && passwordLenOk password) then
    (.err 400 "Validation failed", users)
  else
    let e := strLower (email.getD "")
    match users.find? (fun u => u.email == e) with
    | some _ => (.err 400 "Email already registered", users)
    | none =>
      let u : User :=
        { name := name.getD "", email := e
          passwordHash := hash (password.getD ""), role := "hr" }
      if users.any (fun u0 => u0.email == e) then
        (handleError duplicateKeyError, users)
      else
        (.ok 200 (sign u), users ++ [u])

/-- POST /api/auth/login (lines 110-121). `compareHash` models
`bcrypt.compare(password, user.passwordHash)`. -/
def login (users : List User) (email password : Option String)
    (compareHash : String → String → Bool) (sign : User → String) : Outcome String :=
  if !(isEmailParam email && notEmptyParam password) then
    .err 400 "Validation failed"
  else
    let e := strLower (email.getD "")
    match users.find? (fun u => u.email == e) with
    | none => .err 401 "Invalid credentials"
    | some u =>
      if compareHash (password.getD "") u.passwordHash then
        .ok 200 (sign u)
      else
        .err 401 "Invalid credentials"

/-- The request body of POST /api/candidates, all fields as optional raw
parameter strings. -/
structure CandidateBody where
  name : Option String
  role : Option String
  experience : Option String
  rating : Option String
  notes : Option String
deriving Repr, DecidableEq

/-- Mongoose schema validation run at `candidate.save()` (lines 33-41):
required strings must be non-empty and `experience` has `min: 0`. -/
def candidateSchemaValid (c : Candidate) : Bool :=
  !c.name.isEmpty && !c.role.isEmpty && decide (0 ≤ c.experience)

/-- Whether the `rating` body field (defaulted to 0) casts to a number; a
failed cast surfaces as a mongoose validation error at save time. -/
def ratingCastOk (b : CandidateBody) : Bool :=
  (jsNumber (some (b.rating.getD "0"))).isSome

/-- POST /api/candidates handler after auth (lines 124-134): validator chain
(400 on failure), then the document is built with `Number()` coercions and
defaults and saved; a save rejected by schema validation reaches the error
machinery, which yields `err.status || 500`. -/
def createCandidate (store : List Candidate) (userId : String) (b : CandidateBody)
    (newId : String) (now : Int) : Outcome Candidate × List Candidate :=
  if !(notEmptyParam b.name && notEmptyParam b.role && isNumericParam b.experience) then
    (.err 400 "Validation failed", store)
  else
    let c : Candidate :=
      { id := newId
        name := b.name.getD ""
        role := b.role.getD ""
        experience := (jsNumber b.experience).getD 0
        rating := (jsNumber (some (b.rating.getD "0"))).getD 0
        notes := b.notes.getD ""
        createdBy := userId
        createdAt := now }
    if candidateSchemaValid c && ratingCastOk b then
      (.ok 201 c, store ++ [c])
    else
      (handleError (mongooseValidationError "Candidate validation failed"), store)

/-- Insert an element into a list kept in descending key order. -/
def insertDescBy {α : Type} (key : α → Int) (x : α) : List α → List α
  | [] => [x]
  | y :: ys => if key y ≤ key x then x :: y :: ys else y :: insertDescBy key x ys

/-- Sort a list by key, descending; models a `.sort({ field: -1 })` cursor. -/
def sortDescBy {α : Type} (key : α → Int) : List α → List α
  | [] => []
  | x :: xs => insertDescBy key x (sortDescBy key xs)

/-- MongoDB cursor `.skip(s).limit(l)` semantics: a negative skip is rejected
when the query runs, and a negative limit behaves as its absolute value. A
limit of exactly 0 would mean "no limit" but is unreachable from these routes
(`Number(limit) || 10` is never 0). -/
def mongoSkipLimit {α : Type} (docs : List α) (skip lim : Int) : Except String (List α) :=
  if skip < 0 then .error "Skip value must be non-negative"
  else .ok ((docs.drop skip.toNat).take lim.natAbs)

/-- The effective page size computed by both list endpoints (lines 153 and
203): `Math.min(Number(limit) || 10, 100)`. -/
def effLimit (limit : Option String) : Int :=
  min (jsOrDefault (jsNumber limit) 10) 100

/-- The effective page number (lines 144 and 194): `Number(page) || 1`. -/
def effPage (page : Option String) : Int :=
  jsOrDefault (jsNumber page) 1

/-- The Mongo filter object built by GET /api/candidates (lines 139-142).
For the experience clause, the outer `none` means no clause was installed; an
installed clause holds `Number(minExp)`, where `none` is NaN (a truthy but
non-numeric minExp), which no document satisfies. -/
structure CandidateFilter where
  nameRegex : Option String
  role : Option String
  minExperience : Option (Option Int)
deriving Repr, DecidableEq

/-- Lines 139-142: each clause is installed only when its parameter is truthy. -/
def buildCandidateFilter (q role minExp : Option String) : CandidateFilter :=
  { nameRegex := if strTruthy q then q else none
    role := if strTruthy role then role else none
    minExperience := if strTruthy minExp then some (jsNumber minExp) else none }

/-- Whether a candidate document matches the filter. -/
def candidateMatches (f : CandidateFilter) (c : Candidate) : Bool :=
  (match f.nameRegex with
    | none => true
    | some q => containsCI c.name q) &&
  (match f.role with
    | none => true
    | some r => c.role == r) &&
  (match f.minExperience with
    | none => true
    | some none => false
    | some (some m) => decide (m ≤ c.experience))

/-- The `{ data, total }` body of a list response. -/
structure ListResult (α : Type) where
  data : List α
  total : Nat
deriving Repr, DecidableEq

/-- GET /api/candidates handler after auth (lines 137-162): build the filter,
sort by creation time descending, then either return everything
(`limit === 'all'`) or a skip/limit page together with the full filtered
count. A database error propagates to the error machinery. -/
def listCandidates (store : List Candidate) (q role minExp page limit : Option String) :
    Except String (ListResult Candidate) :=
  let filter := buildCandidateFilter q role minExp
  let matching := store.filter (candidateMatches filter)
  let sorted := sortDescBy (fun c => c.createdAt) matching
  if limit == some "all" then
    .ok { data := sorted, total := sorted.length }
  else
    (mongoSkipLimit sorted ((effPage page - 1) * effLimit limit) (effLimit limit)).map
      (fun d => { data := d, total := matching.length })

/-- The Mongo filter object built by GET /api/interviews (lines 192-193):
optional exact candidate match. -/
structure InterviewFilter where
  candidate : Option String
deriving Repr, DecidableEq

/-- Line 193: installed only when candidateId is truthy. -/
def buildInterviewFilter (candidateId : Option String) : InterviewFilter :=
  { candidate := if strTruthy candidateId then candidateId else none }

/-- Whether an interview document matches the filter. -/
def interviewMatches (f : InterviewFilter) (iv : Interview) : Bool :=
  match f.candidate with
  | none => true
  | some cid => iv.candidate == cid

/-- Mongoose casts the candidate filter value to an ObjectId when the query
executes; a malformed id raises a CastError at that point. -/
def interviewFilterCastError (f : InterviewFilter) : Bool :=
  match f.candidate with
  | none => false
  | some cid => !isMongoId cid

/-- `.populate('candidate')` (line 196): expand the candidate reference into
the referenced document, or `none` when the reference does not resolve. -/
def populate (cands : List Candidate) (iv : Interview) : Interview × Option Candidate :=
  (iv, findCandidate cands iv.candidate)

/-- GET /api/interviews handler after auth (lines 190-212): same shape as the
candidate list, with the candidate-reference filter, population and a
descending sort on the interview date. -/
def listInterviews (cands : List Candidate) (ivs : List Interview)
    (candidateId page limit : Option String) :
    Except String (ListResult (Interview × Option Candidate)) :=
  let filter := buildInterviewFilter candidateId
  if interviewFilterCastError filter then
    .error "CastError"
  else
    let matching := ivs.filter (interviewMatches filter)
    let sorted := sortDescBy (fun iv => iv.date) matching
    if limit == some "all" then
      let data := sorted.map (populate cands)
      .ok { data := data, total := data.length }
    else
      (mongoSkipLimit sorted ((effPage page - 1) * effLimit limit) (effLimit limit)).map
        (fun d => { data := d.map (populate cands), total := matching.length })

/-- The request body of POST /api/interviews. -/
structure InterviewBody where
  candidate : Option String
  date : Option String
  interviewer : Option String
  mode : Option String
deriving Repr, DecidableEq

/-- The validator chain of POST /api/interviews (lines 176-179). -/
def interviewBodyValid (b : InterviewBody) : Bool :=
  (match b.candidate with
    | none => false
    | some c => isMongoId c) &&
  notEmptyParam b.date && notEmptyParam b.interviewer && modeOk b.mode

/-- POST /api/interviews handler after auth (lines 175-187): validators, then
404 "Candidate not found" when the referenced candidate does not resolve,
otherwise the interview is persisted. `dateVal` is the timestamp parsed by
`new Date(date)` from the date body string. -/
def createInterview (cands : List Candidate) (ivs : List Interview) (userId : String)
    (b : InterviewBody) (newId : String) (dateVal : Int) :
    Outcome Interview × List Interview :=
  if !interviewBodyValid b then
    (.err 400 "Validation failed", ivs)
  else
    match findCandidate cands (b.candidate.getD "") with
    | none => (.err 404 "Candidate not found", ivs)
    | some _ =>
      let iv : Interview :=
        { id := newId
          candidate := b.candidate.getD ""
          date := dateVal
          interviewer := b.interviewer.getD ""
          mode := b.mode.getD "remote"
          feedback := { rating := none, notes := none }
          createdBy := userId }
      (.ok 201 iv, ivs ++ [iv])

/-- POST /api/interviews/:id/feedback handler after auth (lines 215-228):
validators, 404 when the interview is absent, then `iv.feedback = {}` is
rebuilt from scratch holding only the fields supplied in this request, and
the document is saved. -/
def setFeedback (ivs : List Interview) (iid : String) (rating notes : Option String) :
    Outcome Interview × List Interview :=
  if !(isMongoId iid && optionalNumericOk rating) then
    (.err 400 "Validation failed", ivs)
  else
    match findInterview ivs iid with
    | none => (.err 404 "Interview not found", ivs)
    | some iv =>
      let fb : Feedback :=
        { rating := rating.map (fun r => (jsStrToInt r).getD 0)
          notes := notes }
      let updated := { iv with feedback := fb }
      (.ok 200 updated, ivs.map (fun x => if x.id == iid then updated else x))

/-! ## General lemmas about the embedding -/

theorem insertDescBy_perm {α : Type} (key : α → Int) (x : α) (l : List α) :
    List.Perm (insertDescBy key x l) (x :: l) := by
  induction l with
  | nil => simp [insertDescBy]
  | cons y ys ih =>
    simp only [insertDescBy]
    split
    · exact List.Perm.refl _
    · exact (ih.cons y).trans (List.Perm.swap x y ys)

theorem sortDescBy_perm {α : Type} (key : α → Int) (l : List α) :
    List.Perm (sortDescBy key l) l := by
  induction l with
  | nil => simp [sortDescBy]
  | cons x xs ih => exact (insertDescBy_perm key x _).trans (ih.cons x)

/-- Saving an updated document whose id matches the looked-up id makes the
later lookup return exactly the updated document. -/
theorem findInterview_map_update (ivs : List Interview) (iid : String) (upd : Interview)
    (hupd : (upd.id == iid) = true) (hfound : (findInterview ivs iid).isSome) :
    findInterview (ivs.map (fun x => if x.id == iid then upd else x)) iid = some upd := by
  induction ivs with
  | nil => simp [findInterview] at hfound
  | cons y ys ih =>
    simp only [findInterview, List.map_cons] at hfound ih ⊢
    by_cases hy : (y.id == iid) = true
    · rw [if_pos hy]
      exact List.find?_cons_of_pos _ hupd
    · rw [if_neg hy]
      have h1 : List.find? (fun iv : Interview => iv.id == iid)
          (y :: List.map (fun x => if (x.id == iid) = true then upd else x) ys) =
          List.find? (fun iv : Interview => iv.id == iid)
            (List.map (fun x => if (x.id == iid) = true then upd else x) ys) :=
        List.find?_cons_of_neg _ hy
      have h2 : List.find? (fun iv : Interview => iv.id == iid) (y :: ys) =
          List.find? (fun iv : Interview => iv.id == iid) ys :=
        List.find?_cons_of_neg _ hy
      rw [h1]
      rw [h2] at hfound
      exact ih hfound

/-! ## Claim theorems -/

/-- C1, counterexample: a candidate-creation request with experience −1 (all
other fields valid) is indeed rejected with nothing persisted, but the status
is 500 (mongoose schema validation fails at save, and the error machinery maps
a status-less error to 500), not the claimed 400. -/
theorem createCandidate_neg_experience_not_400 :
    (createCandidate [] "u1"
        ⟨some "Alice", some "Engineer", some "-1", none, none⟩ "c1" 0).1.statusOf = 500 ∧
    (createCandidate [] "u1"
        ⟨some "Alice", some "Engineer", some "-1", none, none⟩ "c1" 0).1.statusOf ≠ 400 ∧
    (createCandidate [] "u1"
        ⟨some "Alice", some "Engineer", some "-1", none, none⟩ "c1" 0).2 = [] := by
  refine ⟨by decide, by decide, by decide⟩

/-- C1, amended: a candidate-creation request with experience −1 and all other
fields valid passes the route validators but fails the schema's min-0 check at
save, so it is rejected with status 500 and no candidate is persisted; the same
request with experience 0 is accepted (201) and the candidate is persisted with
experience 0. -/
theorem createCandidate_experience_bounds (store : List Candidate) (uid newId : String)
    (now : Int) (nm rl : Option String)
    (hn : notEmptyParam nm = true) (hr : notEmptyParam rl = true) :
    ((createCandidate store uid ⟨nm, rl, some "-1", none, none⟩ newId now).1 =
        Outcome.err 500 "Candidate validation failed" ∧
      (createCandidate store uid ⟨nm, rl, some "-1", none, none⟩ newId now).2 = store) ∧
    ((createCandidate store uid ⟨nm, rl, some "0", none, none⟩ newId now).1 =
        Outcome.ok 201 ⟨newId, nm.getD "", rl.getD "", 0, 0, "", uid, now⟩ ∧
      (createCandidate store uid ⟨nm, rl, some "0", none, none⟩ newId now).2 =
        store ++ [⟨newId, nm.getD "", rl.getD "", 0, 0, "", uid, now⟩]) := by
  cases nm with
  | none => simp [notEmptyParam] at hn
  | some ns =>
    cases rl with
    | none => simp [notEmptyParam] at hr
    | some rs =>
      simp only [notEmptyParam, Bool.not_eq_true'] at hn hr
      have d1 : jsStrToInt "-1" = some (-1) := by decide
      have d0 : jsStrToInt "0" = some 0 := by decide
      refine ⟨⟨?_, ?_⟩, ?_, ?_⟩ <;>
        simp [createCandidate, notEmptyParam, isNumericParam, jsNumber, hn, hr, d1, d0,
          candidateSchemaValid, ratingCastOk, handleError, mongooseValidationError,
          Outcome.statusOf]

/-- C1 witness. -/
theorem createCandidate_experience_bounds_witness :
    ((createCandidate [] "u1" ⟨some "Alice", some "Engineer", some "-1", none, none⟩ "c1" 0).1 =
        Outcome.err 500 "Candidate validation failed" ∧
      (createCandidate [] "u1" ⟨some "Alice", some "Engineer", some "-1", none, none⟩ "c1" 0).2 = []) ∧
    ((createCandidate [] "u1" ⟨some "Alice", some "Engineer", some "0", none, none⟩ "c1" 0).1 =
        Outcome.ok 201 ⟨"c1", "Alice", "Engineer", 0, 0, "", "u1", 0⟩ ∧
      (createCandidate [] "u1" ⟨some "Alice", some "Engineer", some "0", none, none⟩ "c1" 0).2 =
        [⟨"c1", "Alice", "Engineer", 0, 0, "", "u1", 0⟩]) :=
  createCandidate_experience_bounds [] "u1" "c1" 0 (some "Alice") (some "Engineer")
    (by decide) (by decide)

/-- C3, counterexample: the effective page size is not clamped to a minimum of
1: a limit parameter of "-5" passes through as −5, and a request with page=2
and limit=-5 then fails on a negative skip instead of using a limit within
the claimed interval. -/
theorem effLimit_no_lower_clamp :
    effLimit (some "-5") = -5 ∧ effLimit (some "-5") < 1 ∧
    listCandidates [] none none none (some "2") (some "-5") =
      Except.error "Skip value must be non-negative" := by
  refine ⟨by decide, by decide, by decide⟩

/-- C3, amended: for limit ≠ "all", the effective page size defaults to 10
when limit is missing, non-numeric or 0, and is capped above at 100 (so
limit=500 yields 100); but there is no lower clamp, so a negative numeric
limit is used as-is. -/
theorem effLimit_clamping :
    effLimit none = 10 ∧
    (∀ s : String, jsNumber (some s) = none → effLimit (some s) = 10) ∧
    (∀ s : String, jsNumber (some s) = some 0 → effLimit (some s) = 10) ∧
    (∀ (s : String) (n : Int), jsNumber (some s) = some n → n ≠ 0 →
      effLimit (some s) = min n 100) ∧
    (∀ l : Option String, effLimit l ≤ 100) := by
  refine ⟨by decide, ?_, ?_, ?_, ?_⟩
  · intro s hs; simp [effLimit, jsOrDefault, hs]
  · intro s hs; simp [effLimit, jsOrDefault, hs]
  · intro s n hs hn; simp [effLimit, jsOrDefault, hs, hn]
  · intro l
    simp only [effLimit]
    exact min_le_right _ _

/-- C3 witness. -/
theorem effLimit_clamping_witness :
    effLimit (some "abc") = 10 ∧ effLimit (some "500") = min 500 100 :=
  ⟨effLimit_clamping.2.1 "abc" (by decide),
    effLimit_clamping.2.2.2.1 "500" 500 (by decide) (by decide)⟩

/-- C5: an authenticated interview-creation request whose candidate field is a
well-formed identifier not resolving to an existing candidate (other fields
passing validation) is answered 404 "Candidate not found" and the interview
store is unchanged. -/
theorem createInterview_missing_candidate (cands : List Candidate) (ivs : List Interview)
    (uid cid newId : String) (dt itv mode : Option String) (dateVal : Int)
    (hcid : isMongoId cid = true) (hdt : notEmptyParam dt = true)
    (hitv : notEmptyParam itv = true) (hmode : modeOk mode = true)
    (hmiss : findCandidate cands cid = none) :
    createInterview cands ivs uid ⟨some cid, dt, itv, mode⟩ newId dateVal =
      (Outcome.err 404 "Candidate not found", ivs) := by
  simp [createInterview, interviewBodyValid, hcid, hdt, hitv, hmode, hmiss]

/-- C5 witness. -/
theorem createInterview_missing_candidate_witness :
    createInterview [] [] "u1"
        ⟨some "aaaaaaaaaaaaaaaaaaaaaaaa", some "2024-01-01", some "Ann", none⟩ "i1" 0 =
      (Outcome.err 404 "Candidate not found", []) :=
  createInterview_missing_candidate [] [] "u1" "aaaaaaaaaaaaaaaaaaaaaaaa" "i1"
    (some "2024-01-01") (some "Ann") none 0 (by decide) (by decide) (by decide)
    (by decide) (by decide)

/-- C6: a login request passing validation that fails — because no user has
the given (lowercased) email, or because the password hash comparison fails —
is answered 401 with the identical body "Invalid credentials" in both cases. -/
theorem login_uniform_invalid_credentials (users : List User) (email password : Option String)
    (compareHash : String → String → Bool) (sign : User → String)
    (hval : isEmailParam email = true) (hpw : notEmptyParam password = true) :
    (users.find? (fun v => v.email == strLower (email.getD "")) = none →
      login users email password compareHash sign = Outcome.err 401 "Invalid credentials") ∧
    (∀ u, users.find? (fun v => v.email == strLower (email.getD "")) = some u →
      compareHash (password.getD "") u.passwordHash = false →
      login users email password compareHash sign = Outcome.err 401 "Invalid credentials") := by
  constructor
  · intro hnone
    simp [login, hval, hpw, hnone]
  · intro u hu hcmp
    simp [login, hval, hpw, hu, hcmp]

/-- C6 witness. -/
theorem login_uniform_invalid_credentials_witness :
    login [] (some "a@x.com") (some "pw") (fun _ _ => false) (fun _ => "t") =
      Outcome.err 401 "Invalid credentials" ∧
    login [⟨"A", "a@x.com", "H", "hr"⟩] (some "a@x.com") (some "pw")
        (fun _ _ => false) (fun _ => "t") =
      Outcome.err 401 "Invalid credentials" :=
  ⟨(login_uniform_invalid_credentials [] (some "a@x.com") (some "pw")
      (fun _ _ => false) (fun _ => "t") (by decide) (by decide)).1 rfl,
    (login_uniform_invalid_credentials [⟨"A", "a@x.com", "H", "hr"⟩] (some "a@x.com")
      (some "pw") (fun _ _ => false) (fun _ => "t") (by decide) (by decide)).2
      ⟨"A", "a@x.com", "H", "hr"⟩ rfl rfl⟩

/-- On a store where the interview id resolves and the validators pass, the
feedback route rebuilds the feedback object from exactly the supplied fields,
responds with the updated record and saves it in place. -/
theorem setFeedback_found (ivs : List Interview) (iid : String) (iv : Interview)
    (rating notes : Option String) (hid : isMongoId iid = true)
    (hok : optionalNumericOk rating = true) (hfind : findInterview ivs iid = some iv) :
    setFeedback ivs iid rating notes =
      (Outcome.ok 200
          { iv with feedback := ⟨rating.map (fun r => (jsStrToInt r).getD 0), notes⟩ },
        ivs.map (fun x => if (x.id == iid) = true then
          { iv with feedback := ⟨rating.map (fun r => (jsStrToInt r).getD 0), notes⟩ }
          else x)) := by
  simp [setFeedback, hid, hok, hfind]

/-- C2: SetFeedback has replace-not-merge semantics: on an existing interview,
a first call supplying only rating 4 stores feedback with rating 4 and no
notes; a second call supplying only notes "ok" leaves the stored feedback
exactly notes "ok" with no rating field preserved. -/
theorem setFeedback_replace_semantics (ivs : List Interview) (iid : String) (iv : Interview)
    (hid : isMongoId iid = true) (hfind : findInterview ivs iid = some iv) :
    (setFeedback ivs iid (some "4") none).1 =
      Outcome.ok 200 { iv with feedback := ⟨some 4, none⟩ } ∧
    (setFeedback (setFeedback ivs iid (some "4") none).2 iid none (some "ok")).1 =
      Outcome.ok 200 { iv with feedback := ⟨none, some "ok"⟩ } ∧
    findInterview (setFeedback (setFeedback ivs iid (some "4") none).2 iid none (some "ok")).2
        iid =
      some { iv with feedback := ⟨none, some "ok"⟩ } := by
  have hivid : (iv.id == iid) = true :=
    List.find?_some (p := fun x : Interview => x.id == iid) hfind
  have hok4 : optionalNumericOk (some "4") = true := by decide
  have h1 := setFeedback_found ivs iid iv (some "4") none hid hok4 hfind
  have d4 : (some "4").map (fun r => (jsStrToInt r).getD 0) = some 4 := by decide
  rw [d4] at h1
  have hfind1 : findInterview (setFeedback ivs iid (some "4") none).2 iid =
      some { iv with feedback := ⟨some 4, none⟩ } := by
    rw [h1]
    exact findInterview_map_update ivs iid _ (by simpa using hivid) (by simp [hfind])
  have h2 := setFeedback_found (setFeedback ivs iid (some "4") none).2 iid
    { iv with feedback := ⟨some 4, none⟩ } none (some "ok") hid (by decide) hfind1
  simp only [Option.map_none'] at h2
  refine ⟨?_, ?_, ?_⟩
  · rw [h1]
  · rw [h2]
  · rw [h2]
    exact findInterview_map_update _ iid _ (by simpa using hivid) (by simp [hfind1])

/-- C2 witness. -/
theorem setFeedback_replace_semantics_witness :
    (setFeedback [⟨"aaaaaaaaaaaaaaaaaaaaaaaa", "c1", 0, "Bob", "remote", ⟨none, none⟩, "u1"⟩]
        "aaaaaaaaaaaaaaaaaaaaaaaa" (some "4") none).1 =
      Outcome.ok 200
        ⟨"aaaaaaaaaaaaaaaaaaaaaaaa", "c1", 0, "Bob", "remote", ⟨some 4, none⟩, "u1"⟩ ∧
    (setFeedback
        (setFeedback [⟨"aaaaaaaaaaaaaaaaaaaaaaaa", "c1", 0, "Bob", "remote", ⟨none, none⟩, "u1"⟩]
          "aaaaaaaaaaaaaaaaaaaaaaaa" (some "4") none).2
        "aaaaaaaaaaaaaaaaaaaaaaaa" none (some "ok")).1 =
      Outcome.ok 200
        ⟨"aaaaaaaaaaaaaaaaaaaaaaaa", "c1", 0, "Bob", "remote", ⟨none, some "ok"⟩, "u1"⟩ ∧
    findInterview
        (setFeedback
          (setFeedback
            [⟨"aaaaaaaaaaaaaaaaaaaaaaaa", "c1", 0, "Bob", "remote", ⟨none, none⟩, "u1"⟩]
            "aaaaaaaaaaaaaaaaaaaaaaaa" (some "4") none).2
          "aaaaaaaaaaaaaaaaaaaaaaaa" none (some "ok")).2
        "aaaaaaaaaaaaaaaaaaaaaaaa" =
      some ⟨"aaaaaaaaaaaaaaaaaaaaaaaa", "c1", 0, "Bob", "remote", ⟨none, some "ok"⟩, "u1"⟩ :=
  setFeedback_replace_semantics
    [⟨"aaaaaaaaaaaaaaaaaaaaaaaa", "c1", 0, "Bob", "remote", ⟨none, none⟩, "u1"⟩]
    "aaaaaaaaaaaaaaaaaaaaaaaa"
    ⟨"aaaaaaaaaaaaaaaaaaaaaaaa", "c1", 0, "Bob", "remote", ⟨none, none⟩, "u1"⟩
    (by decide) (by decide)

/-- C4: after a successful signup, a second signup whose email differs only in
letter casing is rejected with a 400 error and the user store is unchanged, so
no second user with that case-normalized email is persisted. -/
theorem signup_email_case_unique (users users' : List User) (n1 n2 e1 e2 p1 p2 : Option String)
    (hash1 hash2 : String → String) (sign1 sign2 : User → String) (tok : String)
    (hcase : strLower (e1.getD "") = strLower (e2.getD ""))
    (hfirst : signup users n1 e1 p1 hash1 sign1 = (Outcome.ok 200 tok, users')) :
    (∃ msg, (signup users' n2 e2 p2 hash2 sign2).1 = Outcome.err 400 msg) ∧
    (signup users' n2 e2 p2 hash2 sign2).2 = users' := by
  by_cases hv1 : (notEmptyParam n1 && isEmailParam e1 && passwordLenOk p1) = true
  · rcases hfind : users.find? (fun u => u.email == strLower (e1.getD "")) with _ | u0
    · have hany : users.any (fun u0 => u0.email == strLower (e1.getD "")) = false := by
        rw [List.any_eq_false]
        intro x hx
        exact (List.find?_eq_none.mp hfind) x hx
      have h0 : signup users n1 e1 p1 hash1 sign1 =
          (Outcome.ok 200
              (sign1 ⟨n1.getD "", strLower (e1.getD ""), hash1 (p1.getD ""), "hr"⟩),
            users ++ [⟨n1.getD "", strLower (e1.getD ""), hash1 (p1.getD ""), "hr"⟩]) := by
        simp [signup, hv1, hfind, hany]
      rw [h0] at hfirst
      have husers' : users' = users ++
          [⟨n1.getD "", strLower (e1.getD ""), hash1 (p1.getD ""), "hr"⟩] :=
        (congrArg Prod.snd hfirst).symm
      by_cases hv2 : (notEmptyParam n2 && isEmailParam e2 && passwordLenOk p2) = true
      · have hmem : (⟨n1.getD "", strLower (e1.getD ""), hash1 (p1.getD ""), "hr"⟩ : User) ∈
            users' := by
          rw [husers']
          exact List.mem_append_right _ (List.mem_singleton.mpr rfl)
        have hsome : (users'.find? (fun u => u.email == strLower (e2.getD ""))).isSome := by
          rw [List.find?_isSome]
          refine ⟨_, hmem, ?_⟩
          simp [← hcase]
        rcases hfind2 : users'.find? (fun u => u.email == strLower (e2.getD "")) with _ | v
        · rw [hfind2] at hsome
          simp at hsome
        · constructor
          · exact ⟨"Email already registered", by simp [signup, hv2, hfind2]⟩
          · simp [signup, hv2, hfind2]
      · constructor
        · exact ⟨"Validation failed", by simp [signup, hv2]⟩
        · simp [signup, hv2]
    · simp [signup, hv1, hfind] at hfirst
  · simp [signup, hv1] at hfirst

/-- C4 witness. -/
theorem signup_email_case_unique_witness :
    (∃ msg, (signup [⟨"A", "a@x.com", "secret1", "hr"⟩] (some "B") (some "a@X.com")
        (some "secret2") (fun s => s) (fun _ => "t2")).1 = Outcome.err 400 msg) ∧
    (signup [⟨"A", "a@x.com", "secret1", "hr"⟩] (some "B") (some "a@X.com") (some "secret2")
        (fun s => s) (fun _ => "t2")).2 = [⟨"A", "a@x.com", "secret1", "hr"⟩] :=
  signup_email_case_unique [] [⟨"A", "a@x.com", "secret1", "hr"⟩] (some "A") (some "B")
    (some "A@x.com") (some "a@X.com") (some "secret1") (some "secret2")
    (fun s => s) (fun s => s) (fun _ => "t") (fun _ => "t2") "t" (by decide) (by decide)

/-- C9: the auth middleware with required role "hr": a falsy Authorization
header is denied 401 "No token provided"; a header whose extracted token fails
verification (tampered signature or past expiry, both failures of the
verifier) is denied 401 "Invalid token"; a verified payload whose role claim
differs from "hr" is denied 403 "Forbidden"; a verified payload with role "hr"
proceeds with the decoded claims attached. -/
theorem auth_middleware_cases (header : Option String)
    (verify : String → Except Unit TokenPayload) :
    (strTruthy header = false →
      authMiddleware "hr" verify header = AuthResult.denied 401 "No token provided") ∧
    (∀ h, header = some h → strTruthy header = true →
      (∀ e, verify (jsReplaceOnce h "Bearer ") = Except.error e →
        authMiddleware "hr" verify header = AuthResult.denied 401 "Invalid token") ∧
      (∀ p, verify (jsReplaceOnce h "Bearer ") = Except.ok p →
        (p.role ≠ "hr" →
          authMiddleware "hr" verify header = AuthResult.denied 403 "Forbidden") ∧
        (p.role = "hr" →
          authMiddleware "hr" verify header = AuthResult.allowed p))) := by
  have hhr : "hr".isEmpty = false := by decide
  constructor
  · intro hf
    simp [authMiddleware, hf]
  · intro h hh ht
    subst hh
    constructor
    · intro e he
      simp [authMiddleware, ht, he]
    · intro p hp
      constructor
      · intro hne
        have hb : (p.role != "hr") = true := bne_iff_ne.mpr hne
        simp [authMiddleware, ht, hp, hhr, hb]
      · intro heq
        simp [authMiddleware, ht, hp, hhr, heq]

/-- C9 witness. -/
theorem auth_middleware_cases_witness :
    authMiddleware "hr"
        (fun t => if t == "x" then Except.ok ⟨"u1", "hr"⟩ else Except.error ())
        (some "Bearer x") =
      AuthResult.allowed ⟨"u1", "hr"⟩ :=
  (((auth_middleware_cases (some "Bearer x")
        (fun t => if t == "x" then Except.ok ⟨"u1", "hr"⟩ else Except.error ())).2
      "Bearer x" rfl (by decide)).2 ⟨"u1", "hr"⟩ (by decide)).2 rfl

/-- C7: for paginated list requests (limit ≠ "all") whose effective page and
limit are at least 1, both list endpoints return the slice of the sorted
matching records that skips exactly (page − 1) × limit entries and takes
limit entries, together with total equal to the full filtered count,
independent of page and limit; a missing page parameter defaults to page 1. -/
theorem list_pagination_slices (store cands : List Candidate) (ivs : List Interview)
    (q role minExp candidateId page limit : Option String)
    (hlim : limit ≠ some "all") (hp : 1 ≤ effPage page) (hl : 1 ≤ effLimit limit)
    (hcast : interviewFilterCastError (buildInterviewFilter candidateId) = false) :
    effPage none = 1 ∧
    listCandidates store q role minExp page limit =
      Except.ok
        ⟨((sortDescBy (fun c => c.createdAt)
            (store.filter (candidateMatches (buildCandidateFilter q role minExp)))).drop
              ((effPage page - 1) * effLimit limit).toNat).take (effLimit limit).natAbs,
          (store.filter (candidateMatches (buildCandidateFilter q role minExp))).length⟩ ∧
    listInterviews cands ivs candidateId page limit =
      Except.ok
        ⟨(((sortDescBy (fun iv => iv.date)
            (ivs.filter (interviewMatches (buildInterviewFilter candidateId)))).drop
              ((effPage page - 1) * effLimit limit).toNat).take
                (effLimit limit).natAbs).map (populate cands),
          (ivs.filter (interviewMatches (buildInterviewFilter candidateId))).length⟩ := by
  have hba : (limit == some "all") = false := beq_eq_false_iff_ne.mpr hlim
  have hskip : ¬((effPage page - 1) * effLimit limit < 0) := by
    have h1 : (0 : Int) ≤ effPage page - 1 := by omega
    have h2 : (0 : Int) ≤ effLimit limit := by omega
    have h3 := mul_nonneg h1 h2
    omega
  refine ⟨rfl, ?_, ?_⟩
  · simp [listCandidates, mongoSkipLimit, hba, hskip, Except.map]
  · simp [listInterviews, mongoSkipLimit, hba, hskip, hcast, Except.map]

/-- C7 witness. -/
theorem list_pagination_slices_witness :
    effPage none = 1 ∧
    listCandidates [⟨"c1", "Ann", "Eng", 1, 0, "", "u", 1⟩, ⟨"c2", "Bob", "Eng", 2, 0, "", "u", 2⟩]
        none none none (some "2") (some "1") =
      Except.ok
        ⟨((sortDescBy (fun c => c.createdAt)
            (List.filter (candidateMatches (buildCandidateFilter none none none))
              [⟨"c1", "Ann", "Eng", 1, 0, "", "u", 1⟩, ⟨"c2", "Bob", "Eng", 2, 0, "", "u", 2⟩])).drop
              ((effPage (some "2") - 1) * effLimit (some "1")).toNat).take
            (effLimit (some "1")).natAbs,
          (List.filter (candidateMatches (buildCandidateFilter none none none))
            [⟨"c1", "Ann", "Eng", 1, 0, "", "u", 1⟩,
              ⟨"c2", "Bob", "Eng", 2, 0, "", "u", 2⟩]).length⟩ ∧
    listInterviews [] [] none (some "2") (some "1") =
      Except.ok
        ⟨(((sortDescBy (fun iv => iv.date)
            (List.filter (interviewMatches (buildInterviewFilter none)) [])).drop
              ((effPage (some "2") - 1) * effLimit (some "1")).toNat).take
                (effLimit (some "1")).natAbs).map (populate []),
          (List.filter (interviewMatches (buildInterviewFilter none)) []).length⟩ :=
  list_pagination_slices
    [⟨"c1", "Ann", "Eng", 1, 0, "", "u", 1⟩, ⟨"c2", "Bob", "Eng", 2, 0, "", "u", 2⟩] [] []
    none none none none (some "2") (some "1") (by decide) (by decide) (by decide) (by decide)

/-- C8: with limit equal to the string "all", both list endpoints return every
matching record (the data is a permutation of the filtered store, with no
pagination applied) and total equals the length of the returned data array. -/
theorem list_all_semantics (store cands : List Candidate) (ivs : List Interview)
    (q role minExp candidateId page : Option String)
    (hcast : interviewFilterCastError (buildInterviewFilter candidateId) = false) :
    (∃ r, listCandidates store q role minExp page (some "all") = Except.ok r ∧
      List.Perm r.data (store.filter (candidateMatches (buildCandidateFilter q role minExp))) ∧
      r.total = r.data.length) ∧
    (∃ r, listInterviews cands ivs candidateId page (some "all") = Except.ok r ∧
      List.Perm (r.data.map (fun x => x.1))
        (ivs.filter (interviewMatches (buildInterviewFilter candidateId))) ∧
      r.total = r.data.length) := by
  constructor
  · refine ⟨⟨sortDescBy (fun c => c.createdAt)
        (store.filter (candidateMatches (buildCandidateFilter q role minExp))),
      (sortDescBy (fun c => c.createdAt)
        (store.filter (candidateMatches (buildCandidateFilter q role minExp)))).length⟩,
      ?_, ?_, rfl⟩
    · simp [listCandidates]
    · exact sortDescBy_perm _ _
  · refine ⟨⟨(sortDescBy (fun iv => iv.date)
        (ivs.filter (interviewMatches (buildInterviewFilter candidateId)))).map (populate cands),
      ((sortDescBy (fun iv => iv.date)
        (ivs.filter (interviewMatches (buildInterviewFilter candidateId)))).map
          (populate cands)).length⟩,
      ?_, ?_, rfl⟩
    · simp [listInterviews, hcast]
    · have hm : List.map (fun x : Interview × Option Candidate => x.1)
          (List.map (populate cands) (sortDescBy (fun iv => iv.date)
            (ivs.filter (interviewMatches (buildInterviewFilter candidateId))))) =
          sortDescBy (fun iv => iv.date)
            (ivs.filter (interviewMatches (buildInterviewFilter candidateId))) := by
        rw [List.map_map]
        have hcomp : ((fun x : Interview × Option Candidate => x.1) ∘ populate cands) =
            fun iv : Interview => iv := rfl
        rw [hcomp, List.map_id']
      rw [hm]
      exact sortDescBy_perm _ _

/-- C8 witness. -/
theorem list_all_semantics_witness :
    (∃ r, listCandidates [⟨"c1", "Ann", "Eng", 1, 0, "", "u", 1⟩] none none none none
        (some "all") = Except.ok r ∧
      List.Perm r.data
        (List.filter (candidateMatches (buildCandidateFilter none none none))
          [⟨"c1", "Ann", "Eng", 1, 0, "", "u", 1⟩]) ∧
      r.total = r.data.length) ∧
    (∃ r, listInterviews [] [] none none (some "all") = Except.ok r ∧
      List.Perm (r.data.map (fun x => x.1))
        (List.filter (interviewMatches (buildInterviewFilter none)) []) ∧
      r.total = r.data.length) :=
  list_all_semantics [⟨"c1", "Ann", "Eng", 1, 0, "", "u", 1⟩] [] [] none none none none none
    (by decide)

/-- C10, counterexample: query parameters arrive as strings, and the string
"0" is truthy, so minExp=0 DOES install the experience ≥ 0 clause: the filter
object differs from the one with minExp omitted, and the two requests are not
the same function of the store. -/
theorem minExp_zero_installs_filter :
    buildCandidateFilter none none (some "0") ≠ buildCandidateFilter none none none ∧
    listCandidates [⟨"c1", "A", "E", -1, 0, "", "u", 0⟩] none none (some "0") none none ≠
      listCandidates [⟨"c1", "A", "E", -1, 0, "", "u", 0⟩] none none none none none := by
  refine ⟨by decide, by decide⟩

/-- C10, amended: minExp equal to the empty string is falsy and installs no
filter, so the result is identical to omitting minExp; minExp equal to the
string "0" is truthy and installs the experience ≥ 0 clause, but over stores
whose candidates all satisfy the experience ≥ 0 invariant (as the creation
path guarantees) that clause filters nothing, so the response is nevertheless
identical to omitting minExp. -/
theorem minExp_zero_empty_filtering (store : List Candidate)
    (q role page limit : Option String) :
    listCandidates store q role (some "") page limit =
      listCandidates store q role none page limit ∧
    (buildCandidateFilter q role (some "0")).minExperience = some (some 0) ∧
    ((∀ c ∈ store, 0 ≤ c.experience) →
      listCandidates store q role (some "0") page limit =
        listCandidates store q role none page limit) := by
  have h1 : strTruthy (some "0") = true := by decide
  have h2 : jsNumber (some "0") = some 0 := by decide
  have h3 : strTruthy (some "") = false := by decide
  have h4 : strTruthy none = false := by decide
  refine ⟨?_, ?_, ?_⟩
  · have hf : buildCandidateFilter q role (some "") = buildCandidateFilter q role none := by
      simp [buildCandidateFilter, h3, h4]
    simp only [listCandidates, hf]
  · simp [buildCandidateFilter, h1, h2]
  · intro hinv
    have hmin0 : (buildCandidateFilter q role (some "0")).minExperience = some (some 0) := by
      simp [buildCandidateFilter, h1, h2]
    have hminn : (buildCandidateFilter q role none).minExperience = none := by
      simp [buildCandidateFilter, strTruthy]
    have hname : (buildCandidateFilter q role (some "0")).nameRegex =
        (buildCandidateFilter q role none).nameRegex := by
      simp [buildCandidateFilter]
    have hrole : (buildCandidateFilter q role (some "0")).role =
        (buildCandidateFilter q role none).role := by
      simp [buildCandidateFilter]
    have hfil : store.filter (candidateMatches (buildCandidateFilter q role (some "0"))) =
        store.filter (candidateMatches (buildCandidateFilter q role none)) := by
      apply List.filter_congr
      intro x hx
      have hx0 : decide (0 ≤ x.experience) = true := decide_eq_true (hinv x hx)
      simp only [candidateMatches, hmin0, hminn, hname, hrole, hx0, Bool.and_true]
    simp only [listCandidates, hfil]

/-- C10 witness. -/
theorem minExp_zero_empty_filtering_witness :
    listCandidates [⟨"c1", "A", "E", 3, 0, "", "u", 0⟩] none none (some "") none none =
      listCandidates [⟨"c1", "A", "E", 3, 0, "", "u", 0⟩] none none none none none ∧
    (buildCandidateFilter none none (some "0")).minExperience = some (some 0) ∧
    listCandidates [⟨"c1", "A", "E", 3, 0, "", "u", 0⟩] none none (some "0") none none =
      listCandidates [⟨"c1", "A", "E", 3, 0, "", "u", 0⟩] none none none none none :=
  ⟨(minExp_zero_empty_filtering [⟨"c1", "A", "E", 3, 0, "", "u", 0⟩] none none none none).1,
    (minExp_zero_empty_filtering [⟨"c1", "A", "E", 3, 0, "", "u", 0⟩] none none none none).2.1,
    (minExp_zero_empty_filtering [⟨"c1", "A", "E", 3, 0, "", "u", 0⟩] none none none none).2.2
      (by decide)⟩

end MiniInterview
